import Mathlib

/-!
Shallow embedding of `src/services/StyleApiClient.ts` from the
`style-suggestion-canvas` repository.

Modelling conventions:
* A JavaScript number that the client can compute is either an integer or
  `NaN` (the latter only from `parseInt` on a non-numeric stored string), so
  it is embedded as `Option Int` with `none` playing the role of `NaN`.
  Every numeric comparison on `NaN` is `false`, as in JavaScript.
* `localStorage` is embedded as a record with one field per fixed key the
  client uses (`style_ai_id`, `style_preference_id`, `style_current_iteration`);
  `none` means the key is absent.
* The HTTP transport (`fetch`) is an explicit collaborator: a function from
  the index of the call to a symbolic outcome (parsed success body,
  non-success status with the body's `error` field, or a thrown error
  carrying a message).  The embedding records every request the client
  issues, so "zero transport calls" is the recorded list being empty.
* `throw` is embedded as an explicit `thrown msg` result value.
* The recursion of `submitFeedbackAndGetNextImage` on the
  `"Invalid iteration ID"` branch is unbounded in the source, so the
  embedding takes a fuel argument; `outOfFuel` marks runs that exceed it.
-/

namespace StyleApiClient

/-- A JavaScript number as this client computes them: `some n` is the
integer `n`, `none` is `NaN`. -/
abbrev JSNum := Option Int

/-- JavaScript `a >= b` for an integer literal `b`; false on `NaN`. -/
def jsGe (a : JSNum) (b : Int) : Bool :=
  match a with
  | some x => decide (b ≤ x)
  | none => false

/-- JavaScript `a > b` for an integer literal `b`; false on `NaN`. -/
def jsGt (a : JSNum) (b : Int) : Bool :=
  match a with
  | some x => decide (b < x)
  | none => false

/-- JavaScript `a === b` for an integer literal `b`; false on `NaN`. -/
def jsEqInt (a : JSNum) (b : Int) : Bool :=
  match a with
  | some x => decide (x = b)
  | none => false

/-- JavaScript `a + 1`; `NaN + 1 = NaN`. -/
def jsAdd1 (a : JSNum) : JSNum := a.map (· + 1)

/-- JavaScript truthiness of a nullable string: `null` and `""` are falsy. -/
def truthy : Option String → Bool
  | none => false
  | some s => !s.isEmpty

/-- JavaScript `a || d` for a nullable string `a` and a default `d`. -/
def jsOrDefault (a : Option String) (d : String) : String :=
  match a with
  | none => d
  | some s => if s.isEmpty then d else s

/-- Value of a maximal leading run of decimal digits; `none` when the run
is empty. -/
def digitsVal (cs : List Char) : Option Nat :=
  let ds := cs.takeWhile Char.isDigit
  if ds.isEmpty then none
  else some (ds.foldl (fun a c => a * 10 + (c.toNat - 48)) 0)

/-- JavaScript `parseInt(s)` (radix 10): skip leading whitespace, optional
sign, then the longest digit prefix; `none` models `NaN`. -/
def jsParseInt (s : String) : JSNum :=
  match s.toList.dropWhile Char.isWhitespace with
  | '-' :: rest => (digitsVal rest).map (fun n => -(n : Int))
  | '+' :: rest => (digitsVal rest).map (fun n => (n : Int))
  | cs => (digitsVal cs).map (fun n => (n : Int))

/-- JavaScript `String.prototype.includes`: `pat` occurs contiguously in
`s`. -/
def strContains (s pat : String) : Bool :=
  decide (pat.toList <:+: s.toList)

/-- The persistent key-value store (`localStorage`) restricted to the three
fixed keys the client reads and writes. -/
structure Store where
  style_ai_id : Option String
  style_preference_id : Option String
  style_current_iteration : Option String
deriving DecidableEq, Repr

/-- The store with none of the three keys present. -/
def emptyStore : Store := ⟨none, none, none⟩

/-- The mutable fields of a `StyleApiClient` instance (the base URL is a
constant never branched on, so it is omitted). -/
structure ClientState where
  aiId : Option String
  preferenceId : Option String
  currentIteration : JSNum
deriving DecidableEq, Repr

/-- The constructor: read the two ids from the store and parse the stored
iteration, `0` when the key is absent or holds the empty string
(`storedIteration ? parseInt(storedIteration) : 0`). -/
def mkClient (store : Store) : ClientState :=
  { aiId := store.style_ai_id
    preferenceId := store.style_preference_id
    currentIteration :=
      match store.style_current_iteration with
      | none => some 0
      | some s => if s.isEmpty then some 0 else jsParseInt s }

/-- `get isAuthenticated(): !!this.aiId && !!this.preferenceId`. -/
def isAuthenticated (st : ClientState) : Bool :=
  truthy st.aiId && truthy st.preferenceId

/-- `getAiId()`. -/
def getAiId (st : ClientState) : Option String := st.aiId

/-- `getPreferenceId()`. -/
def getPreferenceId (st : ClientState) : Option String := st.preferenceId

/-- `getCurrentIteration()`. -/
def getCurrentIteration (st : ClientState) : JSNum := st.currentIteration

/-- `setSessionData(aiId, preferenceId)`: set both ids, reset the counter
to 0, and mirror all three to the store. -/
def setSessionData (_st : ClientState) (_store : Store)
    (aiId preferenceId : String) : ClientState × Store :=
  (⟨some aiId, some preferenceId, some 0⟩,
   ⟨some aiId, some preferenceId, some "0"⟩)

/-- `clearSessionData()`: null both ids, zero the counter, remove the three
persisted keys. -/
def clearSessionData (_st : ClientState) (_store : Store) :
    ClientState × Store :=
  (⟨none, none, some 0⟩, ⟨none, none, none⟩)

/-- `setCurrentIteration(iteration)`: store the value and persist its
decimal rendering. -/
def setCurrentIteration (st : ClientState) (store : Store) (i : Int) :
    ClientState × Store :=
  ({ st with currentIteration := some i },
   { store with style_current_iteration := some (toString i) })

/-- The message of the error thrown by every session-requiring method when
no session is active. -/
def notAuthMsg : String := "Not authenticated. Please authenticate first."

/-- A request the client sends to the iteration endpoint
(`POST {base}/preference/{preferenceId}/iteration/{n}`). -/
structure IterRequest where
  preferenceId : String
  aiId : String
  iteration : JSNum
  feedback : String
  style : Option String
  image_key : Option String
deriving DecidableEq, Repr

/-- A well-formed success body of the iteration endpoint
(`{image_url, iteration, style?, image_key?}`). -/
structure IterSuccessBody where
  image_url : String
  iteration : Int
  style : Option String
  image_key : Option String
deriving DecidableEq, Repr

/-- Outcome of one `fetch` against the iteration endpoint, with the body
already parsed: `success` is an ok status whose body parses as an
`IterationResponse`; `httpError status err` is a non-ok status whose JSON
body has `err` as its `error` field (`none` when absent); `throws msg` is a
network-level error thrown with message `msg`. -/
inductive IterFetchResult where
  | success (body : IterSuccessBody)
  | httpError (status : Nat) (error : Option String)
  | throws (msg : String)
deriving DecidableEq, Repr

/-- The `IterationResponse` value `submitFeedbackAndGetNextImage` resolves
with; the `iteration` field is a `JSNum` because the synthetic terminal
result copies `this.currentIteration` verbatim. -/
structure IterationResult where
  image_url : String
  iteration : JSNum
  completed : Bool
  style : Option String
  image_key : Option String
deriving DecidableEq, Repr

/-- How one call of `submitFeedbackAndGetNextImage` ends: a resolved
result, a thrown error, or exhaustion of the embedding's fuel (the source
recursion on `"Invalid iteration ID"` is unbounded). -/
inductive SubmitRes where
  | ok (r : IterationResult)
  | thrown (msg : String)
  | outOfFuel
deriving DecidableEq, Repr

/-- Result of running `submitFeedbackAndGetNextImage`: outcome, final
client state and store, and every request issued to the transport, in
order. -/
structure SubmitOutcome where
  res : SubmitRes
  state : ClientState
  store : Store
  calls : List IterRequest
deriving DecidableEq, Repr

/-- The `catch` block at the end of the inner `try`: a thrown error whose
message contains `"No more images available"` is converted to the synthetic
completion (persisting iteration 30); every other error is rethrown. -/
def handleInnerThrow (msg : String) (st : ClientState) (store : Store)
    (calls : List IterRequest) : SubmitOutcome :=
  if strContains msg "No more images available" then
    let (st', store') := setCurrentIteration st store 30
    ⟨SubmitRes.ok ⟨"", some 30, true, none, none⟩, st', store', calls⟩
  else
    ⟨SubmitRes.thrown msg, st, store, calls⟩

/-- `submitFeedbackAndGetNextImage(feedback?, style?, imageKey?)`.
`tr` is the transport (response to the `k`-th call overall), `fuel` bounds
the depth of the self-healing recursion, `k` is the index of the next
transport call. -/
def submitFeedbackAndGetNextImage (tr : Nat → IterFetchResult) :
    Nat → ClientState → Store → Option String → Option String →
    Option String → Nat → SubmitOutcome
  | 0, st, store, _, _, _, _ => ⟨SubmitRes.outOfFuel, st, store, []⟩
  | fuel + 1, st, store, feedback, style, imageKey, k =>
    match st.aiId, st.preferenceId with
    | some aiId, some preferenceId =>
      if aiId.isEmpty || preferenceId.isEmpty then
        ⟨SubmitRes.thrown notAuthMsg, st, store, []⟩
      else if jsGe st.currentIteration 30 then
        ⟨SubmitRes.ok ⟨"", st.currentIteration, true, none, none⟩,
          st, store, []⟩
      else
        let nextIteration : JSNum :=
          if jsEqInt st.currentIteration 0 then some 1
          else jsAdd1 st.currentIteration
        if jsGt nextIteration 30 then
          ⟨SubmitRes.ok ⟨"", some 30, true, none, none⟩, st, store, []⟩
        else
          let feedbackValue := jsOrDefault feedback "dislike"
          let includeFinal :=
            jsEqInt nextIteration 30 && truthy style && truthy imageKey
          let req : IterRequest :=
            ⟨preferenceId, aiId, nextIteration, feedbackValue,
              if includeFinal then style else none,
              if includeFinal then imageKey else none⟩
          match tr k with
          | IterFetchResult.httpError status err =>
            if status = 400 then
              if err = some "No more images available" then
                let (st', store') := setCurrentIteration st store 30
                ⟨SubmitRes.ok ⟨"", some 30, true, none, none⟩,
                  st', store', [req]⟩
              else if err = some "Invalid iteration ID" then
                let (st', store') := setCurrentIteration st store 0
                let out := submitFeedbackAndGetNextImage tr fuel st' store'
                  feedback style imageKey (k + 1)
                match out.res with
                | SubmitRes.thrown msg =>
                  handleInnerThrow msg out.state out.store (req :: out.calls)
                | r => ⟨r, out.state, out.store, req :: out.calls⟩
              else
                handleInnerThrow
                  ("Failed to submit feedback: " ++ toString status ++
                    " - " ++ jsOrDefault err "Unknown error")
                  st store [req]
            else
              handleInnerThrow
                ("Failed to submit feedback: " ++ toString status ++ " - " ++
                  jsOrDefault err "Unknown error")
              st store [req]
          | IterFetchResult.success body =>
            let (st', store') := setCurrentIteration st store body.iteration
            ⟨SubmitRes.ok ⟨body.image_url, some body.iteration,
                decide (30 ≤ body.iteration), body.style, body.image_key⟩,
              st', store', [req]⟩
          | IterFetchResult.throws msg =>
            handleInnerThrow msg st store [req]
    | _, _ => ⟨SubmitRes.thrown notAuthMsg, st, store, []⟩

/-- The profile payload (`{top_styles, selection_history}`).  The client
returns the parsed JSON verbatim and only ever constructs the empty
default, so both fields are embedded opaquely: `top_styles` as a keyed list
and `selection_history` as a list of opaque entries. -/
structure ProfileResponse where
  top_styles : List (String × Int)
  selection_history : List String
deriving DecidableEq, Repr

/-- The empty default profile `{top_styles: {}, selection_history: []}`. -/
def emptyProfile : ProfileResponse := ⟨[], []⟩

/-- Outcome of one `fetch` of the profile endpoint (GET): parsed success
body, non-ok status with the body's `error` field, or a thrown error. -/
inductive ProfileFetchResult where
  | success (body : ProfileResponse)
  | httpError (status : Nat) (error : Option String)
  | throws (msg : String)
deriving DecidableEq, Repr

/-- How `getProfile` / `saveProfile` end: a resolved value or a thrown
error. -/
inductive CallRes (α : Type) where
  | ok (v : α)
  | thrown (msg : String)
deriving DecidableEq, Repr

/-- Body of `getProfile`'s `try` block: ok ⇒ return the body; status 400 ⇒
return the empty default profile; other non-ok status ⇒ throw
`ProfileFetchError`; transport throw ⇒ that error propagates to the
`catch`. -/
def getProfileTry (tr : ProfileFetchResult) : CallRes ProfileResponse :=
  match tr with
  | ProfileFetchResult.success body => CallRes.ok body
  | ProfileFetchResult.httpError status err =>
    if status = 400 then CallRes.ok emptyProfile
    else CallRes.thrown
      ("Failed to get profile: " ++ toString status ++ " - " ++
        jsOrDefault err "Unknown error")
  | ProfileFetchResult.throws msg => CallRes.thrown msg

/-- `getProfile()`: authentication guard (outside the `try`), then the
`try` body with a `catch` that swallows every thrown error and returns the
empty default profile.  The second component counts transport calls. -/
def getProfile (st : ClientState) (tr : ProfileFetchResult) :
    CallRes ProfileResponse × Nat :=
  match st.aiId, st.preferenceId with
  | some aiId, some preferenceId =>
    if aiId.isEmpty || preferenceId.isEmpty then
      (CallRes.thrown notAuthMsg, 0)
    else
      match getProfileTry tr with
      | CallRes.thrown _ => (CallRes.ok emptyProfile, 1)
      | r => (r, 1)
  | _, _ => (CallRes.thrown notAuthMsg, 0)

/-- Outcome of one `fetch` of the profile endpoint (POST): parsed success
body `{message}`, non-ok status with the body's `error` field, or a thrown
error. -/
inductive SaveFetchResult where
  | success (message : String)
  | httpError (status : Nat) (error : Option String)
  | throws (msg : String)
deriving DecidableEq, Repr

/-- `saveProfile()`: authentication guard, one POST; non-ok status throws
`ProfileSaveError`, the `catch` rethrows every error.  The second component
counts transport calls. -/
def saveProfile (st : ClientState) (tr : SaveFetchResult) :
    CallRes String × Nat :=
  match st.aiId, st.preferenceId with
  | some aiId, some preferenceId =>
    if aiId.isEmpty || preferenceId.isEmpty then
      (CallRes.thrown notAuthMsg, 0)
    else
      match tr with
      | SaveFetchResult.success message => (CallRes.ok message, 1)
      | SaveFetchResult.httpError status err =>
        (CallRes.thrown
          ("Failed to save profile: " ++ toString status ++ " - " ++
            jsOrDefault err "Unknown error"), 1)
      | SaveFetchResult.throws msg => (CallRes.thrown msg, 1)
  | _, _ => (CallRes.thrown notAuthMsg, 0)

/-- The successful branch of `authenticate(accessId, gender)`: the server
issued `ai_id`/`preference_id` and the client stores them via
`setSessionData`. -/
def authenticateSuccess (st : ClientState) (store : Store)
    (ai_id preference_id : String) : ClientState × Store :=
  setSessionData st store ai_id preference_id

/-- Client states (with their store) reachable through the public API: a
fresh construction over any prior store contents, and every mutating
operation, including a reload (re-running the constructor on the current
store). -/
inductive Reachable : ClientState → Store → Prop where
  | init (store : Store) : Reachable (mkClient store) store
  | reload {st store} : Reachable st store → Reachable (mkClient store) store
  | setSession {st store} (a b : String) : Reachable st store →
      Reachable (setSessionData st store a b).1 (setSessionData st store a b).2
  | clear {st store} : Reachable st store →
      Reachable (clearSessionData st store).1 (clearSessionData st store).2
  | setIter {st store} (i : Int) : Reachable st store →
      Reachable (setCurrentIteration st store i).1
        (setCurrentIteration st store i).2
  | auth {st store} (a b : String) : Reachable st store →
      Reachable (authenticateSuccess st store a b).1
        (authenticateSuccess st store a b).2
  | submit {st store} (tr : Nat → IterFetchResult)
      (fuel : Nat) (feedback style imageKey : Option String) (k : Nat) :
      Reachable st store →
      Reachable
        (submitFeedbackAndGetNextImage tr fuel st store
          feedback style imageKey k).state
        (submitFeedbackAndGetNextImage tr fuel st store
          feedback style imageKey k).store

/-- The iteration-counter range invariant claimed by the specification:
the counter is an integer in `[0, 30]`. -/
def iterInRange (st : ClientState) : Prop :=
  ∃ n : Int, st.currentIteration = some n ∧ 0 ≤ n ∧ n ≤ 30

/-! Helper lemmas shared by several verification theorems. -/

theorem isEmpty_false_iff (s : String) : s.isEmpty = false ↔ s ≠ "" := by
  rw [Bool.eq_false_iff]
  simp [String.isEmpty_iff]

theorem isEmpty_false {s : String} (h : s ≠ "") : s.isEmpty = false :=
  (isEmpty_false_iff s).mpr h

theorem toList_append (s t : String) :
    (s ++ t).toList = s.toList ++ t.toList := by
  cases s; cases t; rfl

theorem isInfix_append_left {l r : List Char} (x : List Char)
    (h : l <:+: r) : l <:+: x ++ r := by
  obtain ⟨u, v, huv⟩ := h
  exact ⟨x ++ u, v, by rw [← huv]; simp⟩

/-- C1: for every iteration counter value `n ≥ 30`, calling
`submitFeedbackAndGetNextImage` on an authenticated client whose
`currentIteration` is `n` issues zero transport calls, changes nothing, and
returns the synthetic terminal result
`{imageUrl: "", iteration: n, completed: true}`. -/
theorem submitFeedback_terminal_at_30 (a p : String)
    (ha : a ≠ "") (hp : p ≠ "") (n : Int) (hn : 30 ≤ n)
    (tr : Nat → IterFetchResult) (store : Store)
    (feedback style imageKey : Option String) (fuel k : Nat) :
    submitFeedbackAndGetNextImage tr (fuel + 1) ⟨some a, some p, some n⟩
        store feedback style imageKey k =
      ⟨SubmitRes.ok ⟨"", some n, true, none, none⟩,
        ⟨some a, some p, some n⟩, store, []⟩ := by
  simp [submitFeedbackAndGetNextImage, jsGe, hn,
    isEmpty_false ha, isEmpty_false hp]

/-- Witness for C1 at the concrete input `n = 30`. -/
theorem submitFeedback_terminal_at_30_witness :
    ("a" : String) ≠ "" ∧ ("p" : String) ≠ "" ∧ (30 : Int) ≤ 30 ∧
    submitFeedbackAndGetNextImage (fun _ => IterFetchResult.throws "down") 1
        ⟨some "a", some "p", some 30⟩ emptyStore none none none 0 =
      ⟨SubmitRes.ok ⟨"", some 30, true, none, none⟩,
        ⟨some "a", some "p", some 30⟩, emptyStore, []⟩ :=
  ⟨by decide, by decide, by decide,
    submitFeedback_terminal_at_30 "a" "p" (by decide) (by decide) 30
      (by decide) (fun _ => IterFetchResult.throws "down") emptyStore
      none none none 0 0⟩

/-- C5: with no active session (`aiId` or `preferenceId` null), each of
`submitFeedbackAndGetNextImage`, `saveProfile` and `getProfile` throws the
not-authenticated error, issues zero transport calls, and leaves state and
store unchanged. -/
theorem methods_require_session (st : ClientState) (store : Store)
    (h : st.aiId = none ∨ st.preferenceId = none)
    (trI : Nat → IterFetchResult) (trP : ProfileFetchResult)
    (trS : SaveFetchResult) (feedback style imageKey : Option String)
    (fuel k : Nat) :
    submitFeedbackAndGetNextImage trI (fuel + 1) st store
        feedback style imageKey k =
      ⟨SubmitRes.thrown notAuthMsg, st, store, []⟩ ∧
    saveProfile st trS = (CallRes.thrown notAuthMsg, 0) ∧
    getProfile st trP = (CallRes.thrown notAuthMsg, 0) := by
  obtain ⟨ai, pref, cur⟩ := st
  rcases h with h | h <;> simp only at h <;> subst h <;>
    simp [submitFeedbackAndGetNextImage, saveProfile, getProfile]

/-- Witness for C5 at a fully cleared client. -/
theorem methods_require_session_witness :
    ((⟨none, none, some 0⟩ : ClientState).aiId = none ∨
      (⟨none, none, some 0⟩ : ClientState).preferenceId = none) ∧
    (submitFeedbackAndGetNextImage (fun _ => IterFetchResult.throws "down") 1
        ⟨none, none, some 0⟩ emptyStore none none none 0 =
      ⟨SubmitRes.thrown notAuthMsg, ⟨none, none, some 0⟩, emptyStore, []⟩ ∧
    saveProfile ⟨none, none, some 0⟩ (SaveFetchResult.throws "down") =
      (CallRes.thrown notAuthMsg, 0) ∧
    getProfile ⟨none, none, some 0⟩ (ProfileFetchResult.throws "down") =
      (CallRes.thrown notAuthMsg, 0)) :=
  ⟨Or.inl rfl,
    methods_require_session ⟨none, none, some 0⟩ emptyStore (Or.inl rfl)
      (fun _ => IterFetchResult.throws "down")
      (ProfileFetchResult.throws "down") (SaveFetchResult.throws "down")
      none none none 0 0⟩

/-- C6 (counterexample): the round-trip claim quantifies over all strings,
but with the empty string for both ids, `setSessionData "" ""` followed by
a fresh construction over the same store yields a client with
`isAuthenticated = false` (JavaScript treats `""` as falsy), not `true` as
claimed. -/
theorem roundTrip_counterexample :
    isAuthenticated
        (mkClient (setSessionData (mkClient emptyStore) emptyStore "" "").2) =
      false := by decide

/-- C6 (amended): for all nonempty strings `a` and `b`, `setSessionData a b`
followed by constructing a fresh client against the same persistent store
yields `isAuthenticated = true`, `getAiId = a`, `getPreferenceId = b` and
`getCurrentIteration = 0`. -/
theorem roundTrip_fresh_client (a b : String) (ha : a ≠ "") (hb : b ≠ "")
    (st : ClientState) (store : Store) :
    isAuthenticated (mkClient (setSessionData st store a b).2) = true ∧
    getAiId (mkClient (setSessionData st store a b).2) = some a ∧
    getPreferenceId (mkClient (setSessionData st store a b).2) = some b ∧
    getCurrentIteration (mkClient (setSessionData st store a b).2) =
      some 0 := by
  refine ⟨?_, rfl, rfl, ?_⟩
  · simp [isAuthenticated, mkClient, setSessionData, truthy,
      isEmpty_false ha, isEmpty_false hb]
  · simp only [getCurrentIteration, mkClient, setSessionData]
    decide

/-- Witness for C6 (amended) at `a = "x"`, `b = "y"`. -/
theorem roundTrip_fresh_client_witness :
    ("x" : String) ≠ "" ∧ ("y" : String) ≠ "" ∧
    (isAuthenticated
        (mkClient (setSessionData (mkClient emptyStore) emptyStore "x" "y").2) =
      true ∧
    getAiId (mkClient (setSessionData (mkClient emptyStore) emptyStore "x" "y").2) =
      some "x" ∧
    getPreferenceId
        (mkClient (setSessionData (mkClient emptyStore) emptyStore "x" "y").2) =
      some "y" ∧
    getCurrentIteration
        (mkClient (setSessionData (mkClient emptyStore) emptyStore "x" "y").2) =
      some 0) :=
  ⟨by decide, by decide,
    roundTrip_fresh_client "x" "y" (by decide) (by decide)
      (mkClient emptyStore) emptyStore⟩

/-- C7: after `clearSessionData`, both id getters return null, the
iteration getter returns 0, the client is not authenticated, and none of
the three fixed keys is present in the persistent store. -/
theorem clearSessionData_clears (st : ClientState) (store : Store) :
    getAiId (clearSessionData st store).1 = none ∧
    getPreferenceId (clearSessionData st store).1 = none ∧
    getCurrentIteration (clearSessionData st store).1 = some 0 ∧
    isAuthenticated (clearSessionData st store).1 = false ∧
    (clearSessionData st store).2.style_ai_id = none ∧
    (clearSessionData st store).2.style_preference_id = none ∧
    (clearSessionData st store).2.style_current_iteration = none :=
  ⟨rfl, rfl, rfl, rfl, rfl, rfl, rfl⟩

/-- C8 (counterexample): the state reached by `setSessionData "" ""` has
both ids non-null, yet `isAuthenticated` is `false`, because the getter
tests JavaScript truthiness (`!!`) rather than non-nullness; so the claimed
equivalence fails for empty-string ids. -/
theorem authenticated_iff_counterexample :
    Reachable (setSessionData (mkClient emptyStore) emptyStore "" "").1
        (setSessionData (mkClient emptyStore) emptyStore "" "").2 ∧
    (setSessionData (mkClient emptyStore) emptyStore "" "").1.aiId ≠ none ∧
    (setSessionData (mkClient emptyStore) emptyStore "" "").1.preferenceId ≠
      none ∧
    isAuthenticated (setSessionData (mkClient emptyStore) emptyStore "" "").1 =
      false :=
  ⟨Reachable.setSession "" "" (Reachable.init emptyStore),
    by decide, by decide, by decide⟩

/-- C8 (amended): in every client state — reachable ones included —
`isAuthenticated` holds iff `aiId` and `preferenceId` are both non-null
*and* non-empty. -/
theorem authenticated_iff (st : ClientState) :
    isAuthenticated st = true ↔
      st.aiId ≠ none ∧ st.aiId ≠ some "" ∧
      st.preferenceId ≠ none ∧ st.preferenceId ≠ some "" := by
  obtain ⟨ai, pref, cur⟩ := st
  cases ai <;> cases pref <;>
    simp [isAuthenticated, truthy, isEmpty_false_iff]

/-- C3: on a 400 answer with error text exactly `"No more images available"`,
the call persists `currentIteration = 30` and resolves with
`{imageUrl: "", iteration: 30, completed: true}`; a transport-thrown error
whose message contains that phrase is handled identically; any other thrown
error propagates unchanged. -/
theorem submitFeedback_completion_handling (a p : String)
    (ha : a ≠ "") (hp : p ≠ "") (c : Int) (hc : c < 30) (store : Store)
    (feedback style imageKey : Option String) (fuel k : Nat)
    (tr : Nat → IterFetchResult) :
    (tr k = IterFetchResult.httpError 400 (some "No more images available") →
      (submitFeedbackAndGetNextImage tr (fuel + 1) ⟨some a, some p, some c⟩
          store feedback style imageKey k).res =
        SubmitRes.ok ⟨"", some 30, true, none, none⟩ ∧
      (submitFeedbackAndGetNextImage tr (fuel + 1) ⟨some a, some p, some c⟩
          store feedback style imageKey k).state.currentIteration = some 30 ∧
      (submitFeedbackAndGetNextImage tr (fuel + 1) ⟨some a, some p, some c⟩
          store feedback style imageKey k).store.style_current_iteration =
        some "30") ∧
    (∀ msg, tr k = IterFetchResult.throws msg →
      strContains msg "No more images available" = true →
      (submitFeedbackAndGetNextImage tr (fuel + 1) ⟨some a, some p, some c⟩
          store feedback style imageKey k).res =
        SubmitRes.ok ⟨"", some 30, true, none, none⟩ ∧
      (submitFeedbackAndGetNextImage tr (fuel + 1) ⟨some a, some p, some c⟩
          store feedback style imageKey k).state.currentIteration = some 30 ∧
      (submitFeedbackAndGetNextImage tr (fuel + 1) ⟨some a, some p, some c⟩
          store feedback style imageKey k).store.style_current_iteration =
        some "30") ∧
    (∀ msg, tr k = IterFetchResult.throws msg →
      strContains msg "No more images available" = false →
      (submitFeedbackAndGetNextImage tr (fuel + 1) ⟨some a, some p, some c⟩
          store feedback style imageKey k).res = SubmitRes.thrown msg) := by
  have hge : jsGe (some c) 30 = false := by simp [jsGe]; omega
  have hgt :
      jsGt (if jsEqInt (some c) 0 then some 1 else jsAdd1 (some c)) 30 =
        false := by
    rcases eq_or_ne c 0 with hc0 | hc0
    · simp [jsEqInt, jsAdd1, jsGt, hc0]
    · simp only [jsEqInt, jsAdd1, jsGt]
      simp [hc0]
      omega
  refine ⟨fun htr => ?_, fun msg htr hsub => ?_, fun msg htr hsub => ?_⟩
  · simp [submitFeedbackAndGetNextImage, isEmpty_false ha, isEmpty_false hp,
      hge, hgt, htr, setCurrentIteration]
    rfl
  · simp [submitFeedbackAndGetNextImage, isEmpty_false ha, isEmpty_false hp,
      hge, hgt, htr, handleInnerThrow, hsub, setCurrentIteration]
    rfl
  · simp [submitFeedbackAndGetNextImage, isEmpty_false ha, isEmpty_false hp,
      hge, hgt, htr, handleInnerThrow, hsub]

/-- Witness for C3: a structured 400 completion at `c = 0` and a thrown
completion at `c = 5`. -/
theorem submitFeedback_completion_handling_witness :
    ("a" : String) ≠ "" ∧ ("p" : String) ≠ "" ∧ (0 : Int) < 30 ∧
    (5 : Int) < 30 ∧
    ((submitFeedbackAndGetNextImage
        (fun _ => IterFetchResult.httpError 400
          (some "No more images available")) 1
        ⟨some "a", some "p", some 0⟩ emptyStore none none none 0).res =
      SubmitRes.ok ⟨"", some 30, true, none, none⟩ ∧
    (submitFeedbackAndGetNextImage
        (fun _ => IterFetchResult.httpError 400
          (some "No more images available")) 1
        ⟨some "a", some "p", some 0⟩ emptyStore none none none 0).state.currentIteration =
      some 30 ∧
    (submitFeedbackAndGetNextImage
        (fun _ => IterFetchResult.httpError 400
          (some "No more images available")) 1
        ⟨some "a", some "p", some 0⟩ emptyStore none none none 0).store.style_current_iteration =
      some "30") ∧
    (submitFeedbackAndGetNextImage
        (fun _ => IterFetchResult.throws "err: No more images available") 1
        ⟨some "a", some "p", some 5⟩ emptyStore none none none 0).res =
      SubmitRes.ok ⟨"", some 30, true, none, none⟩ :=
  ⟨by decide, by decide, by decide, by decide,
    (submitFeedback_completion_handling "a" "p" (by decide) (by decide) 0
      (by decide) emptyStore none none none 0 0
      (fun _ => IterFetchResult.httpError 400
        (some "No more images available"))).1 rfl,
    ((submitFeedback_completion_handling "a" "p" (by decide) (by decide) 5
      (by decide) emptyStore none none none 0 0
      (fun _ => IterFetchResult.throws "err: No more images available")).2.1
      "err: No more images available" rfl (by decide)).1⟩

/-- C4: for an authenticated client, `getProfile` never propagates an
error: it resolves with the fetched body on success and with the empty
default profile for every other transport outcome (HTTP 400, any other
non-ok status, or a thrown error), in exactly one transport call. -/
theorem getProfile_never_throws (a p : String) (ha : a ≠ "")
    (hp : p ≠ "") (cur : JSNum) (tr : ProfileFetchResult) :
    getProfile ⟨some a, some p, cur⟩ tr =
      (match tr with
        | ProfileFetchResult.success body => CallRes.ok body
        | _ => CallRes.ok emptyProfile, 1) := by
  cases tr with
  | success body =>
    simp [getProfile, getProfileTry, isEmpty_false ha, isEmpty_false hp]
  | httpError status err =>
    simp only [getProfile, getProfileTry, isEmpty_false ha, isEmpty_false hp,
      Bool.or_self, Bool.false_eq_true, if_false]
    split_ifs <;> simp
  | throws msg =>
    simp [getProfile, getProfileTry, isEmpty_false ha, isEmpty_false hp]

/-- Witness for C4 at a transport that throws. -/
theorem getProfile_never_throws_witness :
    ("a" : String) ≠ "" ∧ ("p" : String) ≠ "" ∧
    getProfile ⟨some "a", some "p", some 3⟩ (ProfileFetchResult.throws "boom") =
      (CallRes.ok emptyProfile, 1) :=
  ⟨by decide, by decide,
    getProfile_never_throws "a" "p" (by decide) (by decide) (some 3)
      (ProfileFetchResult.throws "boom")⟩

/-- C10: a 400 answer whose error text merely *contains*
`"No more images available"` (without being exactly that string, nor
`"Invalid iteration ID"`) is also converted to the synthetic completion
with `currentIteration` persisted as 30: the error object built for the
unrecognized 400 carries the server text in its message, and the inner
`catch` matches it by substring. -/
theorem submitFeedback_unrecognized_400_substring (a p : String)
    (ha : a ≠ "") (hp : p ≠ "") (c : Int) (hc : c < 30) (store : Store)
    (feedback style imageKey : Option String) (fuel k : Nat)
    (tr : Nat → IterFetchResult) (e : String)
    (he1 : e ≠ "No more images available")
    (he2 : e ≠ "Invalid iteration ID")
    (he3 : strContains e "No more images available" = true)
    (htr : tr k = IterFetchResult.httpError 400 (some e)) :
    (submitFeedbackAndGetNextImage tr (fuel + 1) ⟨some a, some p, some c⟩
        store feedback style imageKey k).res =
      SubmitRes.ok ⟨"", some 30, true, none, none⟩ ∧
    (submitFeedbackAndGetNextImage tr (fuel + 1) ⟨some a, some p, some c⟩
        store feedback style imageKey k).state.currentIteration = some 30 ∧
    (submitFeedbackAndGetNextImage tr (fuel + 1) ⟨some a, some p, some c⟩
        store feedback style imageKey k).store.style_current_iteration =
      some "30" := by
  have hge : jsGe (some c) 30 = false := by simp [jsGe]; omega
  have hgt :
      jsGt (if jsEqInt (some c) 0 then some 1 else jsAdd1 (some c)) 30 =
        false := by
    rcases eq_or_ne c 0 with hc0 | hc0
    · simp [jsEqInt, jsAdd1, jsGt, hc0]
    · simp only [jsEqInt, jsAdd1, jsGt]
      simp [hc0]
      omega
  have hene : e ≠ "" := by
    intro h
    subst h
    have h2 := of_decide_eq_true he3
    exact absurd h2.length_le (by decide)
  have hmsg :
      strContains
        ("Failed to submit feedback: " ++ toString (400 : Nat) ++ " - " ++ e)
        "No more images available" = true := by
    refine decide_eq_true ?_
    rw [toList_append]
    exact isInfix_append_left _ (of_decide_eq_true he3)
  simp [submitFeedbackAndGetNextImage, isEmpty_false ha, isEmpty_false hp,
    hge, hgt, htr, he1, he2, jsOrDefault, isEmpty_false hene,
    handleInnerThrow, hmsg, setCurrentIteration]
  rfl

/-- Witness for C10 at the error text
`"Error: No more images available today"`. -/
theorem submitFeedback_unrecognized_400_substring_witness :
    ("a" : String) ≠ "" ∧ ("p" : String) ≠ "" ∧ (0 : Int) < 30 ∧
    ("Error: No more images available today" : String) ≠
      "No more images available" ∧
    ("Error: No more images available today" : String) ≠
      "Invalid iteration ID" ∧
    strContains "Error: No more images available today"
      "No more images available" = true ∧
    ((submitFeedbackAndGetNextImage
        (fun _ => IterFetchResult.httpError 400
          (some "Error: No more images available today")) 1
        ⟨some "a", some "p", some 0⟩ emptyStore none none none 0).res =
      SubmitRes.ok ⟨"", some 30, true, none, none⟩ ∧
    (submitFeedbackAndGetNextImage
        (fun _ => IterFetchResult.httpError 400
          (some "Error: No more images available today")) 1
        ⟨some "a", some "p", some 0⟩ emptyStore none none none 0).state.currentIteration =
      some 30 ∧
    (submitFeedbackAndGetNextImage
        (fun _ => IterFetchResult.httpError 400
          (some "Error: No more images available today")) 1
        ⟨some "a", some "p", some 0⟩ emptyStore none none none 0).store.style_current_iteration =
      some "30") :=
  ⟨by decide, by decide, by decide, by decide, by decide, by decide,
    submitFeedback_unrecognized_400_substring "a" "p" (by decide) (by decide)
      0 (by decide) emptyStore none none none 0 0
      (fun _ => IterFetchResult.httpError 400
        (some "Error: No more images available today"))
      "Error: No more images available today"
      (by decide) (by decide) (by decide) rfl⟩

theorem handleInnerThrow_calls (msg : String) (st : ClientState)
    (store : Store) (calls : List IterRequest) :
    (handleInnerThrow msg st store calls).calls = calls := by
  unfold handleInnerThrow
  split <;> rfl

theorem submit_first_call_at_zero (a p : String) (ha : a ≠ "") (hp : p ≠ "")
    (store : Store) (feedback style imageKey : Option String) (fuel k : Nat)
    (tr : Nat → IterFetchResult) :
    ∃ rest,
      (submitFeedbackAndGetNextImage tr (fuel + 1) ⟨some a, some p, some 0⟩
          store feedback style imageKey k).calls =
        ⟨p, a, some 1, jsOrDefault feedback "dislike", none, none⟩ :: rest := by
  cases htr : tr k with
  | success body =>
    exact ⟨[], by simp [submitFeedbackAndGetNextImage, isEmpty_false ha,
      isEmpty_false hp, htr, jsGe, jsEqInt, jsGt, jsAdd1, setCurrentIteration]⟩
  | httpError status err =>
    by_cases hs : status = 400
    · subst hs
      by_cases he1 : err = some "No more images available"
      · exact ⟨[], by simp [submitFeedbackAndGetNextImage, isEmpty_false ha,
          isEmpty_false hp, htr, he1, jsGe, jsEqInt, jsGt, jsAdd1,
          setCurrentIteration]⟩
      · by_cases he2 : err = some "Invalid iteration ID"
        · refine ⟨(submitFeedbackAndGetNextImage tr fuel
            ⟨some a, some p, some 0⟩
            { store with style_current_iteration := some (toString (0 : Int)) }
            feedback style imageKey (k + 1)).calls, ?_⟩
          simp only [submitFeedbackAndGetNextImage, isEmpty_false ha,
            isEmpty_false hp, htr, he1, he2, jsGe, jsEqInt, jsGt, jsAdd1,
            setCurrentIteration, Bool.or_self, Bool.false_eq_true, if_false,
            Int.reduceLE, Int.reduceLT, decide_False, decide_True,
            ite_true, ite_false]
          rw [if_neg (by simp)]
          cases hres : (submitFeedbackAndGetNextImage tr fuel
              ⟨some a, some p, some 0⟩
              { store with
                style_current_iteration := some (toString (0 : Int)) }
              feedback style imageKey (k + 1)).res with
          | ok r => simp [if_true, handleInnerThrow_calls]
          | thrown msg => simp [if_true, handleInnerThrow_calls]
          | outOfFuel => simp [if_true, handleInnerThrow_calls]
        · exact ⟨[], by simp [submitFeedbackAndGetNextImage, isEmpty_false ha,
            isEmpty_false hp, htr, he1, he2, jsGe, jsEqInt, jsGt, jsAdd1,
            handleInnerThrow_calls]⟩
    · exact ⟨[], by simp [submitFeedbackAndGetNextImage, isEmpty_false ha,
        isEmpty_false hp, htr, hs, jsGe, jsEqInt, jsGt, jsAdd1,
        handleInnerThrow_calls]⟩
  | throws msg =>
    exact ⟨[], by simp [submitFeedbackAndGetNextImage, isEmpty_false ha,
      isEmpty_false hp, htr, jsGe, jsEqInt, jsGt, jsAdd1,
      handleInnerThrow_calls]⟩

/-- C2 (counterexample): against a transport that always answers 400 with
`"Invalid iteration ID"`, ten nested reset-retries issue ten transport
calls and the run is still not finished (it exhausts the embedding's
fuel), so the second consecutive reset-retry failure is *not* treated as a
hard error, no bound of one retry exists, and the operation does not
terminate for every transport behaviour. -/
theorem invalid_id_retry_unbounded_counterexample :
    (submitFeedbackAndGetNextImage
        (fun _ => IterFetchResult.httpError 400 (some "Invalid iteration ID"))
        10 ⟨some "a", some "p", some 0⟩ emptyStore
        none none none 0).calls.length = 10 ∧
    (submitFeedbackAndGetNextImage
        (fun _ => IterFetchResult.httpError 400 (some "Invalid iteration ID"))
        10 ⟨some "a", some "p", some 0⟩ emptyStore
        none none none 0).res = SubmitRes.outOfFuel := by decide

/-- C2 (amended): on a 400 answer with error text exactly
`"Invalid iteration ID"`, the client resets `currentIteration` to 0 and
retries with the original arguments, so the next request targets
iteration 1; the retry is *unbounded* — a failing retry triggers another
reset-retry rather than a hard error. -/
theorem submitFeedback_invalid_id_retries (a p : String) (ha : a ≠ "")
    (hp : p ≠ "") (c : Int) (hc : c < 30) (store : Store)
    (feedback style imageKey : Option String) (fuel k : Nat)
    (tr : Nat → IterFetchResult)
    (htr : tr k = IterFetchResult.httpError 400 (some "Invalid iteration ID")) :
    ∃ first rest,
      (submitFeedbackAndGetNextImage tr (fuel + 1 + 1) ⟨some a, some p, some c⟩
          store feedback style imageKey k).calls =
        first ::
          (⟨p, a, some 1, jsOrDefault feedback "dislike", none, none⟩ :
            IterRequest) :: rest := by
  have hge : jsGe (some c) 30 = false := by simp [jsGe]; omega
  have hgt :
      jsGt (if jsEqInt (some c) 0 then some 1 else jsAdd1 (some c)) 30 =
        false := by
    rcases eq_or_ne c 0 with hc0 | hc0
    · simp [jsEqInt, jsAdd1, jsGt, hc0]
    · simp only [jsEqInt, jsAdd1, jsGt]
      simp [hc0]
      omega
  obtain ⟨rest, hrest⟩ := submit_first_call_at_zero a p ha hp
    { store with style_current_iteration := some (toString (0 : Int)) }
    feedback style imageKey fuel (k + 1) tr
  have hstep := submitFeedbackAndGetNextImage.eq_2 tr
    ⟨some a, some p, some c⟩ store feedback style imageKey k (fuel + 1)
  rw [show fuel + 1 + 1 = (fuel + 1).succ from rfl, hstep]
  simp only [isEmpty_false ha, isEmpty_false hp, Bool.or_self,
    Bool.false_eq_true, if_false, htr, hge, hgt, setCurrentIteration,
    eq_self_iff_true, if_true]
  rw [if_neg (by simp)]
  cases hres : (submitFeedbackAndGetNextImage tr (fuel + 1)
      ⟨some a, some p, some 0⟩
      { store with style_current_iteration := some (toString (0 : Int)) }
      feedback style imageKey (k + 1)).res with
  | ok r =>
    simp only [if_true, handleInnerThrow_calls, hrest]
    exact ⟨_, rest, rfl⟩
  | thrown msg =>
    simp only [if_true, handleInnerThrow_calls, hrest]
    exact ⟨_, rest, rfl⟩
  | outOfFuel =>
    simp only [if_true, handleInnerThrow_calls, hrest]
    exact ⟨_, rest, rfl⟩

/-- Witness for C2 (amended) at `c = 5` against an always-invalid
transport. -/
theorem submitFeedback_invalid_id_retries_witness :
    ("a" : String) ≠ "" ∧ ("p" : String) ≠ "" ∧ (5 : Int) < 30 ∧
    ∃ first rest,
      (submitFeedbackAndGetNextImage
          (fun _ => IterFetchResult.httpError 400
            (some "Invalid iteration ID"))
          (0 + 1 + 1) ⟨some "a", some "p", some 5⟩ emptyStore
          (some "like") none none 0).calls =
        first ::
          (⟨"p", "a", some 1, jsOrDefault (some "like") "dislike", none,
            none⟩ : IterRequest) :: rest :=
  ⟨by decide, by decide, by decide,
    submitFeedback_invalid_id_retries "a" "p" (by decide) (by decide) 5
      (by decide) emptyStore (some "like") none none 0 0
      (fun _ => IterFetchResult.httpError 400 (some "Invalid iteration ID"))
      rfl⟩

theorem iterInRange_handleInnerThrow {st : ClientState} (store : Store)
    (h : iterInRange st) (msg : String) (calls : List IterRequest) :
    iterInRange (handleInnerThrow msg st store calls).state := by
  unfold handleInnerThrow
  split
  · exact ⟨30, rfl, by omega, by omega⟩
  · exact h

set_option maxHeartbeats 1600000 in
theorem submit_preserves_iterInRange (tr : Nat → IterFetchResult)
    (htr : ∀ j body, tr j = IterFetchResult.success body →
      0 ≤ body.iteration ∧ body.iteration ≤ 30) :
    ∀ (fuel : Nat) (st : ClientState) (store : Store)
      (feedback style imageKey : Option String) (k : Nat),
      iterInRange st →
      iterInRange (submitFeedbackAndGetNextImage tr fuel st store
        feedback style imageKey k).state := by
  intro fuel
  induction fuel with
  | zero => intro st store f s i k h; exact h
  | succ fuel ih =>
    intro st store f s i k h
    obtain ⟨ai, pref, cur⟩ := st
    cases ai with
    | none => exact h
    | some a =>
      cases pref with
      | none => exact h
      | some p =>
        simp only [submitFeedbackAndGetNextImage]
        split
        · exact h
        · split
          · exact h
          · split
            · split
              · exact h
              · split
                · split
                  · split
                    · exact ⟨30, rfl, by omega, by omega⟩
                    · split
                      · have hrec := ih
                          (setCurrentIteration ⟨some a, some p, cur⟩ store 0).1
                          (setCurrentIteration ⟨some a, some p, cur⟩ store 0).2
                          f s i (k + 1) ⟨0, rfl, by omega, by omega⟩
                        cases hres : (submitFeedbackAndGetNextImage tr fuel
                            (setCurrentIteration ⟨some a, some p, cur⟩
                              store 0).1
                            (setCurrentIteration ⟨some a, some p, cur⟩
                              store 0).2
                            f s i (k + 1)).res with
                        | ok r => exact hrec
                        | thrown msg =>
                          exact iterInRange_handleInnerThrow _ hrec msg _
                        | outOfFuel => exact hrec
                      · exact iterInRange_handleInnerThrow _ h _ _
                  · exact iterInRange_handleInnerThrow _ h _ _
                · next body heq =>
                    exact ⟨body.iteration, rfl, (htr k body heq).1,
                      (htr k body heq).2⟩
                · exact iterInRange_handleInnerThrow _ h _ _
            · split
              · exact h
              · split
                · split
                  · split
                    · exact ⟨30, rfl, by omega, by omega⟩
                    · split
                      · have hrec := ih
                          (setCurrentIteration ⟨some a, some p, cur⟩ store 0).1
                          (setCurrentIteration ⟨some a, some p, cur⟩ store 0).2
                          f s i (k + 1) ⟨0, rfl, by omega, by omega⟩
                        cases hres : (submitFeedbackAndGetNextImage tr fuel
                            (setCurrentIteration ⟨some a, some p, cur⟩
                              store 0).1
                            (setCurrentIteration ⟨some a, some p, cur⟩
                              store 0).2
                            f s i (k + 1)).res with
                        | ok r => exact hrec
                        | thrown msg =>
                          exact iterInRange_handleInnerThrow _ hrec msg _
                        | outOfFuel => exact hrec
                      · exact iterInRange_handleInnerThrow _ h _ _
                  · exact iterInRange_handleInnerThrow _ h _ _
                · next body heq =>
                    exact ⟨body.iteration, rfl, (htr k body heq).1,
                      (htr k body heq).2⟩
                · exact iterInRange_handleInnerThrow _ h _ _

/-- C9 (counterexample): `setCurrentIteration` persists its argument
without clamping, so `setCurrentIteration 31` leaves the counter at 31 —
outside `[0, 30]` — and stores `"31"`; the claimed invariant is not
preserved by every operation for every input. -/
theorem iteration_range_counterexample :
    (setCurrentIteration (mkClient emptyStore) emptyStore
        31).1.currentIteration = some 31 ∧
    (setCurrentIteration (mkClient emptyStore) emptyStore
        31).2.style_current_iteration = some "31" ∧
    ¬ iterInRange (setCurrentIteration (mkClient emptyStore) emptyStore 31).1 := by
  refine ⟨rfl, rfl, ?_⟩
  rintro ⟨n, hn, h0, h30⟩
  have hn31 : (31 : Int) = n := Option.some.inj hn
  omega

/-- C9 (amended): provided `setCurrentIteration` is called with an
argument in `[0, 30]` and every successful transport response carries an
iteration in `[0, 30]`, every operation of the client preserves
`0 ≤ currentIteration ≤ 30`. -/
theorem iteration_range_preserved (st : ClientState) (store : Store)
    (h : iterInRange st) :
    (∀ a b, iterInRange (setSessionData st store a b).1) ∧
    iterInRange (clearSessionData st store).1 ∧
    (∀ i : Int, 0 ≤ i → i ≤ 30 →
      iterInRange (setCurrentIteration st store i).1) ∧
    (∀ a b, iterInRange (authenticateSuccess st store a b).1) ∧
    (∀ (tr : Nat → IterFetchResult),
      (∀ j body, tr j = IterFetchResult.success body →
        0 ≤ body.iteration ∧ body.iteration ≤ 30) →
      ∀ fuel feedback style imageKey k,
        iterInRange (submitFeedbackAndGetNextImage tr fuel st store
          feedback style imageKey k).state) :=
  ⟨fun _ _ => ⟨0, rfl, by omega, by omega⟩,
    ⟨0, rfl, by omega, by omega⟩,
    fun i h0 h30 => ⟨i, rfl, h0, h30⟩,
    fun _ _ => ⟨0, rfl, by omega, by omega⟩,
    fun tr htr fuel feedback style imageKey k =>
      submit_preserves_iterInRange tr htr fuel st store
        feedback style imageKey k h⟩

/-- Witness for C9 (amended) at a fresh client and an in-range
`setCurrentIteration`. -/
theorem iteration_range_preserved_witness :
    iterInRange (mkClient emptyStore) ∧ (0 : Int) ≤ 7 ∧ (7 : Int) ≤ 30 ∧
    iterInRange (setCurrentIteration (mkClient emptyStore) emptyStore 7).1 :=
  ⟨⟨0, rfl, by omega, by omega⟩, by decide, by decide,
    (iteration_range_preserved (mkClient emptyStore) emptyStore
        ⟨0, rfl, by omega, by omega⟩).2.2.1 7 (by omega) (by omega)⟩

end StyleApiClient
